import Mathlib

/-!
Verification of the TacticalScout frontend core logic: a shallow embedding of
the pure data-transformation functions in `src/Frontend/src/api/scouting.ts`
(`formatGameTime`, `confidenceToEffectiveness`, `classificationToTrend`,
`mapApiResponseToScoutingReport`), `src/Frontend/src/lib/insight.ts`
(`getScoutingConfidence`, `generateHowToWinInsight`) and the intent matcher /
predefined response generator (`matchIntent`, `getPredefinedResponse`).

Modelling conventions:
- JavaScript numbers are modelled as rationals (ℚ); `Math.floor`, `Math.round`,
  `Math.min`, `Math.max` are `jsFloor`, `jsRound`, `jsMin`, `jsMax` below.
  A JavaScript value that is absent, `null`, `undefined` or `NaN` is modelled
  as `Option.none` (ℚ has no NaN; the source treats `NaN` like `null` wherever
  it checks at all, namely in `formatGameTime`).
- A JS `Record<string, T>` that the source only ever consumes with
  `Object.values` is modelled as a `List T` in insertion order.
- The wall clock (`new Date().toISOString()`) is an explicit `now : String`
  argument of the mapper.
-/

/-- JavaScript `Math.floor` on a rational. -/
def jsFloor (q : ℚ) : ℤ := ⌊q⌋

/-- JavaScript `Math.round` on a rational (round half toward +∞). -/
def jsRound (q : ℚ) : ℤ := ⌊q + 1/2⌋

/-- JavaScript `Math.min` on two rationals. -/
def jsMin (a b : ℚ) : ℚ := if a ≤ b then a else b

/-- JavaScript `Math.max` on two rationals. -/
def jsMax (a b : ℚ) : ℚ := if b ≤ a then a else b

/-- Rendering of a number into a template string (only used in message text
that no theorem below inspects numerically). -/
def ratStr (q : ℚ) : String := toString q

/-! ### The normalized view model (`src/types/scouting.ts`) -/

/-- The fixed 5-value role union `"Top" | "Jungle" | "Mid" | "ADC" | "Support"`. -/
inductive Role where
  | Top | Jungle | Mid | ADC | Support
deriving DecidableEq

def roleName : Role → String
  | .Top => "Top"
  | .Jungle => "Jungle"
  | .Mid => "Mid"
  | .ADC => "ADC"
  | .Support => "Support"

inductive Tendency where
  | aggressive | defensive | balanced
deriving DecidableEq

def tendencyName : Tendency → String
  | .aggressive => "aggressive"
  | .defensive => "defensive"
  | .balanced => "balanced"

inductive Trend where
  | up | down | stable
deriving DecidableEq

inductive Effectiveness where
  | high | medium | low
deriving DecidableEq

def effectivenessName : Effectiveness → String
  | .high => "high"
  | .medium => "medium"
  | .low => "low"

inductive Threat where
  | ban | pick | flex
deriving DecidableEq

inductive GamePhase where
  | early | mid | late
deriving DecidableEq

structure PlayerStat where
  name : String
  role : Role
  kda : String
  winRate : ℤ
  tendency : Tendency
  championPool : List String
deriving DecidableEq

structure RecentMatch where
  result : String
  opponent : String
  score : String
  duration : String
deriving DecidableEq

structure TeamStrength where
  area : String
  rating : ℤ
  trend : Trend
deriving DecidableEq

structure CounterStrategy where
  id : String
  title : String
  description : String
  effectiveness : Effectiveness
  phase : GamePhase
deriving DecidableEq

structure DraftRisk where
  champion : String
  role : String
  threat : Threat
  priority : ℚ
  notes : String
deriving DecidableEq

structure TeamRecord where
  wins : ℚ
  losses : ℚ
deriving DecidableEq

structure ScoutingReport where
  teamName : String
  teamLogo : Option String
  record : TeamRecord
  winRate : ℤ
  avgGameTime : String
  players : List PlayerStat
  recentMatches : List RecentMatch
  strengths : List TeamStrength
  counterStrategies : List CounterStrategy
  draftRisks : List DraftRisk
  lastUpdated : String
  limitedDataMode : Option Bool
  matchesAnalyzed : Option ℚ
deriving DecidableEq

/-! ### The raw backend payload (`ScoutingReportApiResponse`) -/

structure ApiTeam where
  id : Option String
  name : Option String
deriving DecidableEq

/-- A `{ score?: number; classification?: string }` metric. -/
structure ApiMetric where
  score : Option ℚ
  classification : Option String
deriving DecidableEq

structure ApiAvgGameLength where
  average_seconds : Option ℚ
  average_minutes : Option ℚ
  classification : Option String
deriving DecidableEq

structure ApiTeamStrategy where
  early_aggression : Option ApiMetric
  objective_contest_rate : Option ApiMetric
  average_game_length : Option ApiAvgGameLength
  risk_volatility : Option ApiMetric
deriving DecidableEq

/-- The `{}` default used for `data.team_strategy ?? {}`. -/
def emptyTeamStrategy : ApiTeamStrategy := ⟨none, none, none, none⟩

structure ApiChampion where
  champion : String
  games : ℚ
deriving DecidableEq

structure ApiEarlyDeath where
  rate : Option ℚ
  classification : Option String
deriving DecidableEq

structure ApiPerformanceVariance where
  classification : Option String
deriving DecidableEq

structure ApiMatchupWinrate where
  overall : Option ℚ
  wins : Option ℚ
  games : Option ℚ
deriving DecidableEq

structure ApiPlayerTendency where
  player_id : Option String
  player_name : Option String
  most_played_champions : Option (List ApiChampion)
  early_death_frequency : Option ApiEarlyDeath
  performance_variance : Option ApiPerformanceVariance
  matchup_winrate : Option ApiMatchupWinrate
deriving DecidableEq

/-- One entry of `team_compositions.compositions`. The declared type only has
`win_rate`, but the mapper also reads `wins` and `games` through a cast. -/
structure ApiComposition where
  win_rate : Option ℚ
  wins : Option ℚ
  games : Option ℚ
deriving DecidableEq

structure ApiStrategy where
  strategy_text : Option String
  confidence_score : Option ℚ
deriving DecidableEq

structure ScoutingReportApiResponse where
  team : Option ApiTeam
  matches_analyzed : Option ℚ
  mock_data_used : Option Bool
  team_strategy : Option ApiTeamStrategy
  player_tendencies : Option (List ApiPlayerTendency)
  team_compositions : Option (List ApiComposition)
  counter_strategies : Option (List ApiStrategy)
deriving DecidableEq

/-! ### Helpers of `src/Frontend/src/api/scouting.ts` -/

/-- The `ROLES` constant. -/
def ROLES : List Role := [.Top, .Jungle, .Mid, .ADC, .Support]

/-- `ROLES[index % ROLES.length]` (always in bounds, default never used). -/
def roleOfIndex (index : ℕ) : Role := ROLES.getD (index % ROLES.length) .Top

/-- JS `s.toString().padStart(2, "0")`. -/
def padTwo (s : String) : String :=
  if s.length < 2 then String.mk (List.replicate (2 - s.length) '0') ++ s else s

/-- `formatGameTime` from `scouting.ts`. An absent / `null` / `NaN` input is
modelled as `none`. -/
def formatGameTime (minutes : Option ℚ) : String :=
  match minutes with
  | none => "—"
  | some q =>
    let m : ℤ := jsFloor q
    let s : ℤ := jsRound ((q - (m : ℚ)) * 60)
    toString m ++ ":" ++ padTwo (toString s)

/-- `confidenceToEffectiveness` from `scouting.ts`. -/
def confidenceToEffectiveness (score : Option ℚ) : Effectiveness :=
  match score with
  | none => .medium
  | some s => if s ≥ 70 then .high else if s ≥ 50 then .medium else .low

/-- `classificationToTrend` from `scouting.ts`. -/
def classificationToTrend (classification : Option String) : Trend :=
  if classification = some "high" then .up
  else if classification = some "low" then .down
  else .stable

/-! ### `mapApiResponseToScoutingReport`, split into its local bindings -/

def compsOf (data : ScoutingReportApiResponse) : List ApiComposition :=
  data.team_compositions.getD []

def playersOf (data : ScoutingReportApiResponse) : List ApiPlayerTendency :=
  data.player_tendencies.getD []

def strategiesOf (data : ScoutingReportApiResponse) : List ApiStrategy :=
  data.counter_strategies.getD []

def teamStrategyOf (data : ScoutingReportApiResponse) : ApiTeamStrategy :=
  data.team_strategy.getD emptyTeamStrategy

def matchesAnalyzedOf (data : ScoutingReportApiResponse) : ℚ :=
  data.matches_analyzed.getD 0

/-- `avgMinutes = teamStrategy.average_game_length?.average_minutes`. -/
def avgMinutesOf (data : ScoutingReportApiResponse) : Option ℚ :=
  (teamStrategyOf data).average_game_length.bind (·.average_minutes)

/-- `totalWins = compositions.reduce((sum, c) => sum + (c.wins ?? 0), 0)`. -/
def totalWins (data : ScoutingReportApiResponse) : ℚ :=
  (compsOf data).foldl (fun sum c => sum + c.wins.getD 0) 0

/-- `totalGames = compositions.reduce((sum, c) => sum + (c.games ?? 0), 0)`. -/
def totalGames (data : ScoutingReportApiResponse) : ℚ :=
  (compsOf data).foldl (fun sum c => sum + c.games.getD 0) 0

/-- `recordWins = totalGames > 0 ? totalWins : Math.floor(matchesAnalyzed / 2)`. -/
def recordWins (data : ScoutingReportApiResponse) : ℚ :=
  if 0 < totalGames data then totalWins data
  else ((jsFloor (matchesAnalyzedOf data / 2) : ℤ) : ℚ)

/-- `recordLosses = totalGames > 0 ? totalGames - totalWins : matchesAnalyzed - recordWins`. -/
def recordLosses (data : ScoutingReportApiResponse) : ℚ :=
  if 0 < totalGames data then totalGames data - totalWins data
  else matchesAnalyzedOf data - recordWins data

/-- The `winRate` local: `totalGames > 0 ? Math.round((100 * totalWins) / totalGames)
: compositions.length ? compositions[0].win_rate ?? 50 : 50`. -/
def winRateRaw (data : ScoutingReportApiResponse) : ℚ :=
  if 0 < totalGames data then ((jsRound (100 * totalWins data / totalGames data) : ℤ) : ℚ)
  else
    match compsOf data with
    | [] => 50
    | c :: _ => c.win_rate.getD 50

/-- The body of `Object.values(playerTendencies).map((p, index) => ...)`. -/
def mapPlayer (index : ℕ) (p : ApiPlayerTendency) : PlayerStat :=
  let champPool := ((p.most_played_champions.getD []).take 5).map (·.champion)
  let tendency : Tendency :=
    if (p.early_death_frequency.bind (·.classification)) = some "high" then .aggressive
    else if (p.performance_variance.bind (·.classification)) = some "low" then .defensive
    else .balanced
  { name := p.player_name.getD (p.player_id.getD "Unknown")
    role := roleOfIndex index
    kda := "—"
    winRate := jsRound ((p.matchup_winrate.bind (·.overall)).getD 0)
    tendency := tendency
    championPool := if champPool = [] then ["—"] else champPool }

def mappedPlayers (data : ScoutingReportApiResponse) : List PlayerStat :=
  (playersOf data).enum.map (fun ip => mapPlayer ip.1 ip.2)

/-- One conditional `strengths.push` for a `{ score?, classification? }` metric. -/
def strengthEntry (area : String) (metric : Option ApiMetric) : List TeamStrength :=
  match metric with
  | none => []
  | some m =>
    match m.score with
    | none => []
    | some sc => [{ area := area, rating := jsRound sc, trend := classificationToTrend m.classification }]

/-- The `strengths` local, including the `{"Analysis", 50, stable}` fallback. -/
def strengthsOf (data : ScoutingReportApiResponse) : List TeamStrength :=
  let ts := teamStrategyOf data
  let l := strengthEntry "Early Game" ts.early_aggression
    ++ strengthEntry "Objective Control" ts.objective_contest_rate
    ++ strengthEntry "Risk Volatility" ts.risk_volatility
  if l = [] then [{ area := "Analysis", rating := 50, trend := .stable }] else l

/-- The `counterStrategies` local: `strategies.map((s, i) => ...)`. -/
def counterStrategiesOf (data : ScoutingReportApiResponse) : List CounterStrategy :=
  (strategiesOf data).enum.map (fun is =>
    let txt := is.2.strategy_text.getD ""
    { id := "cs-" ++ toString is.1
      title := String.mk (txt.data.take 50) ++ (if 50 < txt.data.length then "…" else "")
      description := txt
      effectiveness := confidenceToEffectiveness is.2.confidence_score
      phase := .mid })

/-- The draft-risk priority formula `Math.min(95, 50 + c.games * 10)`. -/
def riskPriority (games : ℚ) : ℚ := jsMin 95 (50 + games * 10)

/-- The inner body of the draft-risk double loop: up to 2 risks for the player
at position `ip.1`. -/
def perPlayerRisks (ip : ℕ × ApiPlayerTendency) : List DraftRisk :=
  ((ip.2.most_played_champions.getD []).take 2).map (fun c =>
    { champion := c.champion
      role := roleName (roleOfIndex ip.1)
      threat := .pick
      priority := riskPriority c.games
      notes := ip.2.player_name.getD "Player" ++ " – " ++ ratStr c.games ++ " games" })

/-- The `draftRisks` accumulator before sorting. -/
def draftRisksAll (data : ScoutingReportApiResponse) : List DraftRisk :=
  (playersOf data).enum.flatMap perPlayerRisks

/-- The comparator `(a, b) => b.priority - a.priority` as an order relation. -/
def priorityGE (a b : DraftRisk) : Prop := b.priority ≤ a.priority

instance : DecidableRel priorityGE := fun a b => inferInstanceAs (Decidable (b.priority ≤ a.priority))

/-- JS `Array.prototype.sort` is stable, so the sort by descending priority is
modelled as a stable insertion sort. -/
def sortByPriorityDesc (l : List DraftRisk) : List DraftRisk :=
  List.insertionSort priorityGE l

/-- `mapApiResponseToScoutingReport` from `scouting.ts`, with the wall clock as
the explicit argument `now`. -/
def mapApiResponseToScoutingReport (data : ScoutingReportApiResponse)
    (teamName : String) (now : String) : ScoutingReport :=
  { teamName := (data.team.bind (·.name)).getD teamName
    teamLogo := none
    record := { wins := recordWins data, losses := jsMax 0 (recordLosses data) }
    winRate := jsRound (winRateRaw data)
    avgGameTime := formatGameTime (avgMinutesOf data)
    players := mappedPlayers data
    recentMatches := []
    strengths := strengthsOf data
    counterStrategies := counterStrategiesOf data
    draftRisks := (sortByPriorityDesc (draftRisksAll data)).take 8
    lastUpdated := now
    limitedDataMode := some (data.mock_data_used.getD false)
    matchesAnalyzed := some (matchesAnalyzedOf data) }

/-! ### `src/Frontend/src/lib/insight.ts` -/

structure Confidence where
  score : ℚ
  label : String
  matchesAnalyzed : ℚ
deriving DecidableEq

/-- `getScoutingConfidence` from `insight.ts`. -/
def getScoutingConfidence (report : Option ScoutingReport) : Option Confidence :=
  match report with
  | none => none
  | some report =>
    let n : ℚ := report.matchesAnalyzed.getD 0
    let isMock : Bool := report.limitedDataMode == some true
    if isMock = true ∨ n = 0 then some { score := 25, label := "low", matchesAnalyzed := n }
    else if n ≤ 1 then some { score := 20, label := "low", matchesAnalyzed := n }
    else if n ≤ 2 then some { score := 40, label := "low", matchesAnalyzed := n }
    else if n ≤ 3 then some { score := 55, label := "medium", matchesAnalyzed := n }
    else if n ≤ 4 then some { score := 70, label := "medium", matchesAnalyzed := n }
    else if n ≤ 5 then some { score := 80, label := "high", matchesAnalyzed := n }
    else if n ≤ 9 then some { score := 85, label := "high", matchesAnalyzed := n }
    else some { score := jsMin 98 (75 + n), label := "high", matchesAnalyzed := n }

structure Insight where
  summary : String
  bullets : List String
deriving DecidableEq

/-- The numeric rank `{ high: 3, medium: 2, low: 1 }` used by the insight
generator's strategy comparator. -/
def effOrder : Effectiveness → ℕ
  | .high => 3
  | .medium => 2
  | .low => 1

/-- The comparator `(a, b) => order[b.effectiveness] - order[a.effectiveness]`
as an order relation (`a` may stay before `b` iff the comparator is ≤ 0). -/
def effGE (a b : CounterStrategy) : Prop :=
  effOrder b.effectiveness ≤ effOrder a.effectiveness

instance : DecidableRel effGE := fun a b =>
  inferInstanceAs (Decidable (effOrder b.effectiveness ≤ effOrder a.effectiveness))

/-- `[...report.counterStrategies].sort(comparator)` — a stable sort by
effectiveness descending. -/
def sortedStrategies (report : ScoutingReport) : List CounterStrategy :=
  List.insertionSort effGE report.counterStrategies

/-- The first bullet block: `strategies.slice(0, 3).forEach(s =>
bullets.push(s.description || s.title))`. -/
def strategyBullets (report : ScoutingReport) : List String :=
  ((sortedStrategies report).take 3).map
    (fun s => if s.description = "" then s.title else s.description)

/-- The second bullet block: the lowest-rated strength (first minimum wins),
when any strength exists. -/
def weaknessBullets (report : ScoutingReport) : List String :=
  match report.strengths with
  | [] => []
  | s0 :: rest =>
    let weakest := rest.foldl (fun m s => if s.rating < m.rating then s else m) s0
    ["Exploit " ++ report.teamName ++ "\x27s weaker " ++ weakest.area ++ " ("
      ++ toString weakest.rating ++ "/100)—look for plays in that phase."]

/-- `report.draftRisks.filter(r => r.threat === "ban")`. -/
def bansOf (report : ScoutingReport) : List DraftRisk :=
  report.draftRisks.filter (fun r => decide (r.threat = .ban))

/-- `report.draftRisks.filter(r => r.threat === "pick" || r.threat === "flex")`. -/
def picksOf (report : ScoutingReport) : List DraftRisk :=
  report.draftRisks.filter (fun r => decide (r.threat = .pick ∨ r.threat = .flex))

/-- The third bullet block: `bans.sort(desc)[0]`, when any ban-threat risk exists. -/
def banBullets (report : ScoutingReport) : List String :=
  match sortByPriorityDesc (bansOf report) with
  | [] => []
  | topBan :: _ =>
    ["Priority ban: " ++ topBan.champion ++ " (" ++ topBan.notes ++ ")."]

/-- The bullets accumulated before the pick/flex step. -/
def preBullets (report : ScoutingReport) : List String :=
  strategyBullets report ++ weaknessBullets report ++ banBullets report

/-- The text pushed for the top pick/flex risk. -/
def pickLine (topPick : DraftRisk) : String :=
  "Contest or deny: " ++ topPick.champion ++ "—" ++ topPick.notes

/-- All bullets: the pick/flex bullet is appended when some pick/flex risk
exists and fewer than 6 bullets have been accumulated. -/
def bulletsOf (report : ScoutingReport) : List String :=
  let pre := preBullets report
  match sortByPriorityDesc (picksOf report) with
  | [] => pre
  | topPick :: _ => if pre.length < 6 then pre ++ [pickLine topPick] else pre

/-- The summary template of `generateHowToWinInsight`. -/
def summaryOf (report : ScoutingReport) : String :=
  if (bulletsOf report).length = 0 then
    "Scouting data for " ++ report.teamName
      ++ " is loaded. Ask the AI assistant for tailored win conditions."
  else
    "To beat " ++ report.teamName
      ++ ", focus on the tactics below. Use draft bans and picks to limit their comfort and play to their weaknesses."

/-- `generateHowToWinInsight` from `insight.ts`. -/
def generateHowToWinInsight (report : Option ScoutingReport) : Option Insight :=
  match report with
  | none => none
  | some report => some { summary := summaryOf report, bullets := bulletsOf report }

/-! ### Intent matcher and predefined responses (`coachChat` module) -/

/-- The ASCII whitespace characters matched by the regex `\s` (the Unicode
space characters are irrelevant to every keyword and claim). -/
def jsSpace (c : Char) : Bool :=
  decide (c = ' ' ∨ c = '\t' ∨ c = '\n' ∨ c = '\r' ∨ c = '\x0b' ∨ c = '\x0c')

/-- JS `String.prototype.trim` on a character list. -/
def trimChars (l : List Char) : List Char :=
  ((l.dropWhile jsSpace).reverse.dropWhile jsSpace).reverse

/-- The regex replacement `/\s+/g → " "`: every maximal whitespace run becomes
one space. `prevWs` records whether the previous character was whitespace. -/
def collapseWsAux (prevWs : Bool) : List Char → List Char
  | [] => []
  | c :: rest =>
    if jsSpace c then
      if prevWs then collapseWsAux true rest
      else ' ' :: collapseWsAux true rest
    else c :: collapseWsAux false rest

/-- `normalize` from the coach-chat module:
`question.toLowerCase().trim().replace(/\s+/g, " ")` (renamed: Mathlib already
declares a top-level `normalize`). -/
def normalizeQuestion (question : String) : String :=
  String.mk (collapseWsAux false (trimChars (question.data.map Char.toLower)))

/-- Whether `pat` starts the character list `text`. -/
def matchFront : List Char → List Char → Bool
  | [], _ => true
  | _ :: _, [] => false
  | p :: ps, t :: ts => p == t && matchFront ps ts

/-- Whether `pat` occurs contiguously somewhere in `text`. -/
def occursIn (pat : List Char) : List Char → Bool
  | [] => pat.isEmpty
  | c :: rest => matchFront pat (c :: rest) || occursIn pat rest

/-- JS `q.includes(k)`. -/
def strIncludes (q k : String) : Bool := occursIn k.data q.data

/-- The `INTENT_IDS` union. -/
inductive IntentId where
  | best_ban_strategy
  | counter_comp
  | win_conditions
  | early_game_plan
  | weak_player_targeting
deriving DecidableEq

def intentIdStr : IntentId → String
  | .best_ban_strategy => "best_ban_strategy"
  | .counter_comp => "counter_comp"
  | .win_conditions => "win_conditions"
  | .early_game_plan => "early_game_plan"
  | .weak_player_targeting => "weak_player_targeting"

/-- `intentId.replace(/_/g, " ")`. -/
def undToSpace (s : String) : String :=
  String.mk (s.data.map (fun c => if c = '_' then ' ' else c))

/-- The `INTENT_MATCHES` table, in the object-literal insertion order that
`Object.entries` iterates. -/
def INTENT_MATCHES : List (IntentId × List String) :=
  [ (.best_ban_strategy,
      ["best ban", "ban strategy", "bans", "priority ban", "what to ban",
       "ban recommendation", "ban pick"]),
    (.counter_comp,
      ["counter their comp", "counter comp", "counter the comp",
       "counter composition", "counter their team", "counter pick",
       "counter strategy", "counter them"]),
    (.win_conditions,
      ["win condition", "win conditions", "how to win", "how do we win",
       "what do we need to win", "path to victory"]),
    (.early_game_plan,
      ["early game", "early plan", "early game plan", "early strategy",
       "early phase", "first 15", "laning", "early pressure"]),
    (.weak_player_targeting,
      ["weak player", "weakest player", "target which player", "who to target",
       "weak link", "exploit player", "focus which lane", "weak lane"]) ]

/-- `matchIntent` from the coach-chat module. -/
def matchIntent (question : String) : Option IntentId :=
  let q := normalizeQuestion question
  if q = "" then none
  else (INTENT_MATCHES.find? (fun e => e.2.any (fun k => strIncludes q k))).map (·.1)

/-- Ascending comparator `(a, b) => a.winRate - b.winRate` on players. -/
def playerWinLE (a b : PlayerStat) : Prop := a.winRate ≤ b.winRate

instance : DecidableRel playerWinLE := fun a b =>
  inferInstanceAs (Decidable (a.winRate ≤ b.winRate))

/-- `getPredefinedResponse` from the coach-chat module. -/
def getPredefinedResponse (intentId : IntentId) (report : Option ScoutingReport) : String :=
  match report with
  | none =>
    "No scouting data loaded. Select an opponent and generate a report to get "
      ++ undToSpace (intentIdStr intentId) ++ " insights."
  | some report =>
    let team := report.teamName
    match intentId with
    | .best_ban_strategy =>
      match sortByPriorityDesc (bansOf report) with
      | [] =>
        "No priority bans identified for " ++ team
          ++ " in the current report. Check draft risks after loading more data."
      | b0 :: rest =>
        let top := (b0 :: rest).take 5
        let lines := top.map (fun b =>
          "• " ++ b.champion ++ " (" ++ ratStr b.priority ++ "%): " ++ b.notes)
        "Best ban strategy vs " ++ team ++ ":\n\n" ++ String.intercalate "\n" lines
          ++ "\n\nPrioritize banning " ++ b0.champion ++ " when possible."
    | .counter_comp =>
      let strategies := (report.counterStrategies.filter (fun s =>
        decide (s.effectiveness = .high ∨ s.effectiveness = .medium))).take 5
      match strategies with
      | [] =>
        "No counter-comp strategies generated yet for " ++ team
          ++ ". Ensure scouting report has been generated."
      | _ :: _ =>
        let lines := strategies.map (fun s =>
          "• [" ++ effectivenessName s.effectiveness ++ "] " ++ s.description)
        "Counter " ++ team ++ "\x27s comp:\n\n" ++ String.intercalate "\n" lines
    | .win_conditions =>
      let high := report.counterStrategies.filter (fun s => decide (s.effectiveness = .high))
      let weak : Option TeamStrength :=
        match report.strengths with
        | [] => none
        | s0 :: rest => some (rest.foldl (fun m s => if s.rating < m.rating then s else m) s0)
      let parts : List String :=
        (if high.isEmpty then [] else
          ["Key strategies: " ++ String.intercalate " " (high.map (·.description)) ++ "."])
        ++ (match weak with
          | none => []
          | some w =>
            ["Exploit: Their weaker " ++ w.area ++ " (" ++ toString w.rating
              ++ "/100)—play around that phase."])
        ++ (if report.draftRisks.isEmpty then [] else
          match sortByPriorityDesc (bansOf report) with
          | [] => []
          | topBan :: _ => ["Draft: Deny " ++ topBan.champion ++ " (" ++ topBan.notes ++ ")."])
      match parts with
      | [] =>
        "Win conditions for " ++ team
          ++ " will appear here once counter strategies and strengths are available."
      | _ :: _ =>
        "Win conditions vs " ++ team ++ ":\n\n" ++ String.intercalate "\n\n" parts
    | .early_game_plan =>
      let early := report.counterStrategies.filter (fun s => decide (s.phase = .early))
      let earlyRisks := (report.draftRisks.filter (fun r =>
        decide (r.threat = .pick ∨ r.threat = .flex))).take 3
      let parts : List String :=
        (if early.isEmpty then [] else
          ["Early-phase strategies:\n"
            ++ String.intercalate "\n" (early.map (fun s => "• " ++ s.description))])
        ++ (match earlyRisks with
          | [] => []
          | e0 :: _ =>
            ["Contest early: " ++ String.intercalate ", " (earlyRisks.map (·.champion))
              ++ "—" ++ e0.notes])
        ++ (if report.strengths.isEmpty then [] else
          match report.strengths.find? (fun s =>
              occursIn "early".data (s.area.data.map Char.toLower)) with
          | none => []
          | some es =>
            ["Note: " ++ team ++ "\x27s early rating (" ++ es.area ++ ") is "
              ++ toString es.rating ++ "/100—"
              ++ (if es.trend = .up then "they\x27re strong early; play safe or match pressure."
                  else "look to exploit if we have stronger early.")])
      match parts with
      | [] =>
        "Early game plan for " ++ team
          ++ ": generate a scouting report to see early-phase strategies and draft priorities."
      | _ :: _ =>
        "Early game plan vs " ++ team ++ ":\n\n" ++ String.intercalate "\n\n" parts
    | .weak_player_targeting =>
      match List.insertionSort playerWinLE report.players with
      | [] =>
        "No player-level data for " ++ team
          ++ " in this report. Load more matches to see weak-player targeting."
      | weakest :: rest =>
        let low := ((weakest :: rest).filter (fun p => decide (p.winRate < 55))).take 3
        let lines := low.map (fun p =>
          "• " ++ p.name ++ " (" ++ roleName p.role ++ "): " ++ toString p.winRate
            ++ "% win rate, " ++ tendencyName p.tendency ++ "—"
            ++ String.intercalate "/" (p.championPool.take 2))
        "Weak player targeting vs " ++ team ++ ":\n\nFocus pressure on " ++ weakest.name
          ++ " (" ++ roleName weakest.role ++ ", " ++ toString weakest.winRate
          ++ "% win rate, " ++ tendencyName weakest.tendency ++ ").\n\n"
          ++ String.intercalate "\n" lines
          ++ "\n\nDeny their comfort picks and exploit " ++ weakest.name
          ++ "\x27s tendency in lane."

/-! ### General lemmas about the JS arithmetic helpers -/

lemma jsMin_le_left (a b : ℚ) : jsMin a b ≤ a := by
  unfold jsMin; split <;> linarith

lemma jsMin_eq_min (a b : ℚ) : jsMin a b = min a b := by
  unfold jsMin; rw [min_def]

lemma jsMax_eq_of_le {a b : ℚ} (h : a ≤ b) : jsMax a b = b := by
  unfold jsMax
  rcases lt_or_eq_of_le h with h' | h'
  · rw [if_neg (by linarith)]
  · subst h'; split <;> rfl

lemma jsRound_mem_Icc {q : ℚ} (h0 : 0 ≤ q) (h1 : q ≤ 100) :
    0 ≤ jsRound q ∧ jsRound q ≤ 100 := by
  unfold jsRound
  refine ⟨Int.floor_nonneg.mpr (by linarith), ?_⟩
  have : ⌊q + 1/2⌋ < 101 := Int.floor_lt.mpr (by push_cast; linarith)
  omega

lemma jsRound_intCast (z : ℤ) : jsRound ((z : ℤ) : ℚ) = z := by
  unfold jsRound
  rw [Int.floor_eq_iff]
  constructor <;> [skip; push_cast] <;> norm_num

/-! ### Lemmas about the stable sorts -/

instance : IsTotal DraftRisk priorityGE :=
  ⟨fun a b => le_total b.priority a.priority⟩

instance : IsTrans DraftRisk priorityGE :=
  ⟨fun _ _ _ hab hbc => le_trans hbc hab⟩

lemma mem_sortByPriorityDesc {d : DraftRisk} {l : List DraftRisk} :
    d ∈ sortByPriorityDesc l ↔ d ∈ l :=
  (List.perm_insertionSort priorityGE l).mem_iff

lemma sortByPriorityDesc_sorted (l : List DraftRisk) :
    List.Pairwise priorityGE (sortByPriorityDesc l) :=
  List.sorted_insertionSort priorityGE l

instance : IsTotal CounterStrategy effGE :=
  ⟨fun a b => Nat.le_total (effOrder b.effectiveness) (effOrder a.effectiveness)⟩

instance : IsTrans CounterStrategy effGE :=
  ⟨fun _ _ _ hab hbc => le_trans hbc hab⟩

lemma orderedInsert_of_forall {α : Type} (r : α → α → Prop) [DecidableRel r]
    {x : α} {l : List α} (h : ∀ y ∈ l, r x y) :
    List.orderedInsert r x l = x :: l := by
  cases l with
  | nil => rfl
  | cons b t => simp [List.orderedInsert, if_pos (h b (by simp))]

lemma orderedInsert_append_left {α : Type} (r : α → α → Prop) [DecidableRel r]
    {x : α} {l₁ l₂ : List α} (h : ∀ y ∈ l₁, ¬ r x y) :
    List.orderedInsert r x (l₁ ++ l₂) = l₁ ++ List.orderedInsert r x l₂ := by
  induction l₁ with
  | nil => rfl
  | cons b t ih =>
    simp only [List.cons_append, List.orderedInsert,
      if_neg (h b (by simp)), List.cons.injEq, true_and]
    exact ih (fun y hy => h y (by simp [hy]))

lemma effOrder_le_three (e : Effectiveness) : effOrder e ≤ 3 := by
  cases e <;> simp [effOrder]

lemma eff_of_mem_filter {t : List CounterStrategy} {e : Effectiveness} {y : CounterStrategy}
    (hy : y ∈ t.filter (fun s => decide (s.effectiveness = e))) : y.effectiveness = e := by
  simpa using (List.mem_filter.mp hy).2

/-- A stable sort by effectiveness descending is exactly: the high entries in
original order, then the medium entries, then the low entries. -/
lemma insertionSort_effGE_eq (l : List CounterStrategy) :
    List.insertionSort effGE l =
      l.filter (fun s => decide (s.effectiveness = .high))
        ++ l.filter (fun s => decide (s.effectiveness = .medium))
        ++ l.filter (fun s => decide (s.effectiveness = .low)) := by
  induction l with
  | nil => rfl
  | cons x t ih =>
    have hsort : List.insertionSort effGE (x :: t)
        = List.orderedInsert effGE x (List.insertionSort effGE t) := rfl
    rw [hsort, ih]
    cases he : x.effectiveness with
    | high =>
      rw [orderedInsert_of_forall effGE (fun y _ => by
        simp only [effGE, he, effOrder]; exact effOrder_le_three _)]
      simp [List.filter_cons, he]
    | medium =>
      have hH : ∀ y ∈ t.filter (fun s => decide (s.effectiveness = .high)), ¬ effGE x y := by
        intro y hy
        have hyh : y.effectiveness = .high := eff_of_mem_filter hy
        simp [effGE, he, hyh, effOrder]
      have hML : ∀ y ∈ t.filter (fun s => decide (s.effectiveness = .medium))
          ++ t.filter (fun s => decide (s.effectiveness = .low)), effGE x y := by
        intro y hy
        rcases List.mem_append.mp hy with hy' | hy'
        · have := eff_of_mem_filter hy'
          simp [effGE, he, this, effOrder]
        · have := eff_of_mem_filter hy'
          simp [effGE, he, this, effOrder]
      rw [List.append_assoc, orderedInsert_append_left effGE hH,
        orderedInsert_of_forall effGE hML]
      simp [List.filter_cons, he]
    | low =>
      have hHM : ∀ y ∈ t.filter (fun s => decide (s.effectiveness = .high))
          ++ t.filter (fun s => decide (s.effectiveness = .medium)), ¬ effGE x y := by
        intro y hy
        rcases List.mem_append.mp hy with hy' | hy'
        · have := eff_of_mem_filter hy'
          simp [effGE, he, this, effOrder]
        · have := eff_of_mem_filter hy'
          simp [effGE, he, this, effOrder]
      have hL : ∀ y ∈ t.filter (fun s => decide (s.effectiveness = .low)), effGE x y := by
        intro y hy
        have := eff_of_mem_filter hy
        simp [effGE, he, this, effOrder]
      rw [orderedInsert_append_left effGE hHM, orderedInsert_of_forall effGE hL]
      simp [List.filter_cons, he]

/-! ### Lemmas about the mapper's draft risks -/

lemma mem_draftRisksAll {data : ScoutingReportApiResponse} {d : DraftRisk}
    (hd : d ∈ draftRisksAll data) :
    ∃ ip ∈ (playersOf data).enum, ∃ c ∈ (ip.2.most_played_champions.getD []).take 2,
      d = { champion := c.champion
            role := roleName (roleOfIndex ip.1)
            threat := .pick
            priority := riskPriority c.games
            notes := ip.2.player_name.getD "Player" ++ " – " ++ ratStr c.games ++ " games" } := by
  unfold draftRisksAll at hd
  rw [List.mem_flatMap] at hd
  obtain ⟨ip, hip, hd⟩ := hd
  unfold perPlayerRisks at hd
  rw [List.mem_map] at hd
  obtain ⟨c, hc, rfl⟩ := hd
  exact ⟨ip, hip, c, hc, rfl⟩

lemma mapped_draftRisks_eq (data : ScoutingReportApiResponse) (name now : String) :
    (mapApiResponseToScoutingReport data name now).draftRisks
      = (sortByPriorityDesc (draftRisksAll data)).take 8 := rfl

lemma mem_mapped_draftRisks {data : ScoutingReportApiResponse} {name now : String}
    {d : DraftRisk} (hd : d ∈ (mapApiResponseToScoutingReport data name now).draftRisks) :
    d ∈ draftRisksAll data := by
  rw [mapped_draftRisks_eq] at hd
  exact mem_sortByPriorityDesc.mp (List.take_subset 8 _ hd)

lemma threat_of_mem_mapped {data : ScoutingReportApiResponse} {name now : String}
    {d : DraftRisk} (hd : d ∈ (mapApiResponseToScoutingReport data name now).draftRisks) :
    d.threat = .pick := by
  obtain ⟨ip, _, c, _, rfl⟩ := mem_draftRisksAll (mem_mapped_draftRisks hd)
  rfl

/-! ### Folding sums -/

lemma foldl_add_eq_sum {α : Type} (f : α → ℚ) (l : List α) (a : ℚ) :
    l.foldl (fun s c => s + f c) a = a + (l.map f).sum := by
  induction l generalizing a with
  | nil => simp
  | cons x t ih => simp [ih, add_assoc]

/-! ### Test fixtures (concrete inputs used by witnesses and counterexamples) -/

/-- A payload with every field absent. -/
def emptyPayload : ScoutingReportApiResponse := ⟨none, none, none, none, none, none, none⟩

/-- A report with empty lists and a given sample size / limited-data flag. -/
def plainReport (n : Option ℚ) (mock : Option Bool) : ScoutingReport :=
  ⟨"T", none, ⟨0, 0⟩, 0, "—", [], [], [], [], [], "t0", mock, n⟩

/-! ### C1: the confidence estimator -/

/-- The spec's confidence score breakpoints, stated as in §4.2. -/
def confidenceScoreSpec (mock : Bool) (n : ℚ) : ℚ :=
  if mock = true ∨ n = 0 then 25
  else if n ≤ 1 then 20
  else if n ≤ 2 then 40
  else if n ≤ 3 then 55
  else if n ≤ 4 then 70
  else if n ≤ 5 then 80
  else if n ≤ 9 then 85
  else jsMin 98 (75 + n)

/-- The spec's confidence label breakpoints (low up to 2, medium up to 4,
high above). -/
def confidenceLabelSpec (mock : Bool) (n : ℚ) : String :=
  if mock = true ∨ n = 0 then "low"
  else if n ≤ 2 then "low"
  else if n ≤ 4 then "medium"
  else "high"

/-- C1: `getScoutingConfidence` returns `none` exactly on a `none` report and
otherwise returns exactly the spec's step function of `n = matchesAnalyzed`
(default 0) and `limitedDataMode`; in particular n = 10 gives 85/high and
n = 50 gives min(98, 125) = 98/high, and limited-data mode or n = 0 gives
25/low. -/
theorem c1_confidence_step_function :
    getScoutingConfidence none = none ∧
    (∀ r : ScoutingReport,
      getScoutingConfidence (some r) =
        some { score := confidenceScoreSpec (r.limitedDataMode == some true) (r.matchesAnalyzed.getD 0)
               label := confidenceLabelSpec (r.limitedDataMode == some true) (r.matchesAnalyzed.getD 0)
               matchesAnalyzed := r.matchesAnalyzed.getD 0 }) ∧
    getScoutingConfidence (some (plainReport (some 10) (some false))) = some ⟨85, "high", 10⟩ ∧
    getScoutingConfidence (some (plainReport (some 50) (some false))) = some ⟨98, "high", 50⟩ ∧
    getScoutingConfidence (some (plainReport (some 0) (some false))) = some ⟨25, "low", 0⟩ ∧
    getScoutingConfidence (some (plainReport (some 7) (some true))) = some ⟨25, "low", 7⟩ := by
  refine ⟨rfl, ?_, ?_, ?_, ?_, ?_⟩
  · intro r
    simp only [getScoutingConfidence, confidenceScoreSpec, confidenceLabelSpec]
    split_ifs <;> first | rfl | (exfalso; linarith)
  · norm_num [getScoutingConfidence, plainReport, jsMin]
  · norm_num [getScoutingConfidence, plainReport, jsMin]
  · norm_num [getScoutingConfidence, plainReport, jsMin]
  · norm_num [getScoutingConfidence, plainReport, jsMin]

/-! ### C3: game-time formatting -/

/-- C3: for every rational minutes value the formatted string is
`floor(minutes)`, a colon, and `round((minutes − floor(minutes)) × 60)`
zero-padded to two digits; an absent (or NaN) minutes value formats to the
placeholder "—"; 32.25 formats to "32:15". -/
theorem c3_format_game_time :
    formatGameTime none = "—" ∧
    (∀ q : ℚ, formatGameTime (some q)
        = toString ⌊q⌋ ++ ":" ++ padTwo (toString ⌊(q - (⌊q⌋ : ℚ)) * 60 + 1/2⌋)) ∧
    formatGameTime (some (129/4)) = "32:15" := by
  refine ⟨rfl, fun q => rfl, ?_⟩
  show toString ⌊(129/4:ℚ)⌋ ++ ":"
      ++ padTwo (toString ⌊((129/4:ℚ) - ((⌊(129/4:ℚ)⌋ : ℤ) : ℚ)) * 60 + 1/2⌋) = "32:15"
  rw [show ⌊(129/4:ℚ)⌋ = 32 from by norm_num]
  rw [show ⌊((129/4:ℚ) - ((32:ℤ):ℚ)) * 60 + 1/2⌋ = 15 from by norm_num]
  rfl

/-! ### C4: record reconstruction without composition data -/

/-- C4: when the composition list contributes zero total games and
`matchesAnalyzed = n ≥ 0`, the mapped record has `wins = floor(n / 2)` and
`losses = n − wins`, hence `wins + losses = n` and `losses ≥ 0`. -/
theorem c4_record_reconstruction (data : ScoutingReportApiResponse) (name now : String)
    (hg : totalGames data = 0) (hn : 0 ≤ matchesAnalyzedOf data) :
    (mapApiResponseToScoutingReport data name now).record.wins
        = ((⌊matchesAnalyzedOf data / 2⌋ : ℤ) : ℚ) ∧
    (mapApiResponseToScoutingReport data name now).record.losses
        = matchesAnalyzedOf data - ((⌊matchesAnalyzedOf data / 2⌋ : ℤ) : ℚ) ∧
    (mapApiResponseToScoutingReport data name now).record.wins
        + (mapApiResponseToScoutingReport data name now).record.losses
        = matchesAnalyzedOf data ∧
    0 ≤ (mapApiResponseToScoutingReport data name now).record.losses := by
  have hwins : recordWins data = ((⌊matchesAnalyzedOf data / 2⌋ : ℤ) : ℚ) := by
    unfold recordWins jsFloor
    rw [if_neg (by rw [hg]; exact lt_irrefl 0)]
  have hfl : ((⌊matchesAnalyzedOf data / 2⌋ : ℤ) : ℚ) ≤ matchesAnalyzedOf data := by
    have h1 : ((⌊matchesAnalyzedOf data / 2⌋ : ℤ) : ℚ) ≤ matchesAnalyzedOf data / 2 :=
      Int.floor_le _
    linarith
  have hlossraw : recordLosses data
      = matchesAnalyzedOf data - ((⌊matchesAnalyzedOf data / 2⌋ : ℤ) : ℚ) := by
    unfold recordLosses
    rw [if_neg (by rw [hg]; exact lt_irrefl 0), hwins]
  have hlosses : (mapApiResponseToScoutingReport data name now).record.losses
      = matchesAnalyzedOf data - ((⌊matchesAnalyzedOf data / 2⌋ : ℤ) : ℚ) := by
    show jsMax 0 (recordLosses data) = _
    rw [hlossraw, jsMax_eq_of_le (by linarith)]
  refine ⟨hwins, hlosses, ?_, ?_⟩
  · rw [show (mapApiResponseToScoutingReport data name now).record.wins
        = recordWins data from rfl, hwins, hlosses]
    ring
  · rw [hlosses]; linarith

def c4data : ScoutingReportApiResponse := ⟨none, some 7, none, none, none, none, none⟩

/-- Witness for C4: `matchesAnalyzed = 7` with no composition data gives the
record 3–4. -/
theorem c4_record_reconstruction_witness :
    (mapApiResponseToScoutingReport c4data "Team" "t0").record.wins = 3 ∧
    (mapApiResponseToScoutingReport c4data "Team" "t0").record.losses = 4 := by
  have h := c4_record_reconstruction c4data "Team" "t0" rfl
    (by norm_num [matchesAnalyzedOf, c4data])
  constructor
  · rw [h.1]; norm_num [matchesAnalyzedOf, c4data]
  · rw [h.2.1]; norm_num [matchesAnalyzedOf, c4data]

/-! ### C9: mapper determinism -/

/-- C9: the mapper is a pure function of the payload, the requested team name
and the clock; two runs differ at most in `lastUpdated`, and a frozen clock
(same `now`) makes the reports equal in every field. -/
theorem c9_mapper_determinism (data : ScoutingReportApiResponse) (name t1 t2 : String) :
    mapApiResponseToScoutingReport data name t1
      = { mapApiResponseToScoutingReport data name t2 with lastUpdated := t1 } := rfl

/-! ### C5: draft-risk generation -/

/-- C5: each player contributes at most 2 draft risks, taken in order from its
most-played champions, with threat `pick` and priority `min(95, 50 + games×10)`
(so priority never exceeds 95, and 10 games give exactly 95); the mapped
`draftRisks` list is sorted by descending priority and has at most 8 entries. -/
theorem c5_draft_risk_generation :
    (∀ (data : ScoutingReportApiResponse) (name now : String),
      ((mapApiResponseToScoutingReport data name now).draftRisks.all
          (fun d => decide (d.threat = .pick ∧ d.priority ≤ 95)) = true) ∧
      List.Pairwise priorityGE (mapApiResponseToScoutingReport data name now).draftRisks ∧
      (mapApiResponseToScoutingReport data name now).draftRisks.length ≤ 8) ∧
    (∀ ip : ℕ × ApiPlayerTendency,
      (perPlayerRisks ip).length ≤ 2 ∧
      (perPlayerRisks ip).map (·.priority)
        = ((ip.2.most_played_champions.getD []).take 2).map (fun c => riskPriority c.games) ∧
      (perPlayerRisks ip).map (·.threat)
        = ((ip.2.most_played_champions.getD []).take 2).map (fun _ => Threat.pick) ∧
      (perPlayerRisks ip).map (·.champion)
        = ((ip.2.most_played_champions.getD []).take 2).map (·.champion)) ∧
    (∀ g : ℚ, riskPriority g ≤ 95) ∧
    riskPriority 10 = 95 := by
  refine ⟨?_, ?_, fun g => jsMin_le_left 95 _, ?_⟩
  · intro data name now
    refine ⟨?_, ?_, ?_⟩
    · rw [List.all_eq_true]
      intro d hd
      obtain ⟨ip, _, c, _, rfl⟩ := mem_draftRisksAll (mem_mapped_draftRisks hd)
      rw [decide_eq_true_eq]
      exact ⟨rfl, jsMin_le_left 95 _⟩
    · rw [mapped_draftRisks_eq]
      exact List.Pairwise.sublist (List.take_sublist 8 _) (sortByPriorityDesc_sorted _)
    · rw [mapped_draftRisks_eq]
      exact List.length_take_le 8 _
  · intro ip
    refine ⟨?_, ?_, ?_, ?_⟩
    · unfold perPlayerRisks
      rw [List.length_map]
      exact List.length_take_le 2 _
    · unfold perPlayerRisks
      rw [List.map_map]
      rfl
    · unfold perPlayerRisks
      rw [List.map_map]
      rfl
    · unfold perPlayerRisks
      rw [List.map_map]
      rfl
  · unfold riskPriority jsMin
    rw [if_pos (by norm_num : (95:ℚ) ≤ 50 + 10 * 10)]

/-! ### C6: insight bullet construction -/

/-- C6: the insight generator uses at most the first 3 counter-strategies of a
stable sort by effectiveness descending (the sorted list is exactly the high
entries in original order, then the medium entries, then the low entries, so
ties keep their relative order, and with ≥ 5 strategies exactly
min(3, n) = 3 strategy bullets appear); the pick/flex bullet is appended
exactly when a pick/flex risk exists, the bullet count before that step being
always below 6; the total bullet count never exceeds 6. -/
theorem c6_insight_bullets :
    generateHowToWinInsight none = none ∧
    (∀ r : ScoutingReport,
      generateHowToWinInsight (some r)
        = some { summary := summaryOf r, bullets := bulletsOf r } ∧
      sortedStrategies r
        = r.counterStrategies.filter (fun s => decide (s.effectiveness = .high))
          ++ r.counterStrategies.filter (fun s => decide (s.effectiveness = .medium))
          ++ r.counterStrategies.filter (fun s => decide (s.effectiveness = .low)) ∧
      (strategyBullets r).length = min 3 r.counterStrategies.length ∧
      (preBullets r).length < 6 ∧
      bulletsOf r
        = preBullets r ++ ((sortByPriorityDesc (picksOf r)).head?.map pickLine).toList ∧
      (bulletsOf r).length ≤ 6) := by
  refine ⟨rfl, ?_⟩
  intro r
  have hstrat : (strategyBullets r).length = min 3 r.counterStrategies.length := by
    unfold strategyBullets sortedStrategies
    rw [List.length_map, List.length_take, (List.perm_insertionSort effGE _).length_eq]
  have hpre : (preBullets r).length < 6 := by
    have h1 : (strategyBullets r).length ≤ 3 := by
      rw [hstrat]; exact min_le_left 3 _
    have h2 : (weaknessBullets r).length ≤ 1 := by
      unfold weaknessBullets; cases r.strengths <;> simp
    have h3 : (banBullets r).length ≤ 1 := by
      unfold banBullets; split <;> simp
    unfold preBullets
    rw [List.length_append, List.length_append]
    omega
  have hbul : bulletsOf r
      = preBullets r ++ ((sortByPriorityDesc (picksOf r)).head?.map pickLine).toList := by
    unfold bulletsOf
    cases h : sortByPriorityDesc (picksOf r) with
    | nil => simp
    | cons a t => simp [if_pos hpre]
  refine ⟨rfl, insertionSort_effGE_eq r.counterStrategies, hstrat, hpre, hbul, ?_⟩
  rw [hbul, List.length_append]
  have : (((sortByPriorityDesc (picksOf r)).head?.map pickLine).toList).length ≤ 1 := by
    cases (sortByPriorityDesc (picksOf r)).head? <;> simp
  omega

/-! ### Branch lemmas for `getPredefinedResponse` -/

lemma gpr_none (i : IntentId) :
    getPredefinedResponse i none
      = "No scouting data loaded. Select an opponent and generate a report to get "
        ++ undToSpace (intentIdStr i) ++ " insights." := rfl

lemma gpr_best_ban_empty {r : ScoutingReport} (h : bansOf r = []) :
    getPredefinedResponse .best_ban_strategy (some r)
      = "No priority bans identified for " ++ r.teamName
        ++ " in the current report. Check draft risks after loading more data." := by
  simp only [getPredefinedResponse, h]
  rfl

lemma gpr_counter_comp_empty {r : ScoutingReport}
    (h : r.counterStrategies.filter
      (fun s => decide (s.effectiveness = .high ∨ s.effectiveness = .medium)) = []) :
    getPredefinedResponse .counter_comp (some r)
      = "No counter-comp strategies generated yet for " ++ r.teamName
        ++ ". Ensure scouting report has been generated." := by
  simp only [getPredefinedResponse, h]
  rfl

lemma gpr_win_conditions_empty {r : ScoutingReport}
    (h1 : r.counterStrategies = []) (h2 : r.strengths = []) (h3 : r.draftRisks = []) :
    getPredefinedResponse .win_conditions (some r)
      = "Win conditions for " ++ r.teamName
        ++ " will appear here once counter strategies and strengths are available." := by
  simp only [getPredefinedResponse, h1, h2, h3]
  rfl

lemma gpr_early_game_empty {r : ScoutingReport}
    (h1 : r.counterStrategies.filter (fun s => decide (s.phase = .early)) = [])
    (h2 : r.draftRisks.filter (fun x => decide (x.threat = .pick ∨ x.threat = .flex)) = [])
    (h3 : r.strengths = []) :
    getPredefinedResponse .early_game_plan (some r)
      = "Early game plan for " ++ r.teamName
        ++ ": generate a scouting report to see early-phase strategies and draft priorities." := by
  simp only [getPredefinedResponse, h1, h2, h3]
  rfl

lemma gpr_weak_players_empty {r : ScoutingReport} (h : r.players = []) :
    getPredefinedResponse .weak_player_targeting (some r)
      = "No player-level data for " ++ r.teamName
        ++ " in this report. Load more matches to see weak-player targeting." := by
  simp only [getPredefinedResponse, h]
  rfl

/-! ### C8: predefined response totality -/

/-- C8: `getPredefinedResponse` is total (modelled as a Lean function into
`String`, so it never throws and never returns undefined); on a `none` report
every intent gets the fixed "no data loaded" message containing the intent id
with underscores replaced by spaces; with a report present, each intent branch
whose required data is empty returns its explanatory placeholder string. -/
theorem c8_predefined_response_totality :
    (∀ i : IntentId, getPredefinedResponse i none
      = "No scouting data loaded. Select an opponent and generate a report to get "
        ++ undToSpace (intentIdStr i) ++ " insights.") ∧
    (∀ r : ScoutingReport, bansOf r = [] →
      getPredefinedResponse .best_ban_strategy (some r)
        = "No priority bans identified for " ++ r.teamName
          ++ " in the current report. Check draft risks after loading more data.") ∧
    (∀ r : ScoutingReport,
      r.counterStrategies.filter
        (fun s => decide (s.effectiveness = .high ∨ s.effectiveness = .medium)) = [] →
      getPredefinedResponse .counter_comp (some r)
        = "No counter-comp strategies generated yet for " ++ r.teamName
          ++ ". Ensure scouting report has been generated.") ∧
    (∀ r : ScoutingReport, r.counterStrategies = [] → r.strengths = [] →
      r.draftRisks = [] →
      getPredefinedResponse .win_conditions (some r)
        = "Win conditions for " ++ r.teamName
          ++ " will appear here once counter strategies and strengths are available.") ∧
    (∀ r : ScoutingReport,
      r.counterStrategies.filter (fun s => decide (s.phase = .early)) = [] →
      r.draftRisks.filter (fun x => decide (x.threat = .pick ∨ x.threat = .flex)) = [] →
      r.strengths = [] →
      getPredefinedResponse .early_game_plan (some r)
        = "Early game plan for " ++ r.teamName
          ++ ": generate a scouting report to see early-phase strategies and draft priorities.") ∧
    (∀ r : ScoutingReport, r.players = [] →
      getPredefinedResponse .weak_player_targeting (some r)
        = "No player-level data for " ++ r.teamName
          ++ " in this report. Load more matches to see weak-player targeting.") :=
  ⟨gpr_none,
   fun _ h => gpr_best_ban_empty h,
   fun _ h => gpr_counter_comp_empty h,
   fun _ h1 h2 h3 => gpr_win_conditions_empty h1 h2 h3,
   fun _ h1 h2 h3 => gpr_early_game_empty h1 h2 h3,
   fun _ h => gpr_weak_players_empty h⟩

/-- Witness for C8, discharging every hypothesis at the all-empty report. -/
theorem c8_predefined_response_totality_witness :
    getPredefinedResponse .counter_comp none
      = "No scouting data loaded. Select an opponent and generate a report to get "
        ++ undToSpace (intentIdStr .counter_comp) ++ " insights." ∧
    getPredefinedResponse .best_ban_strategy (some (plainReport none none))
      = "No priority bans identified for " ++ (plainReport none none).teamName
        ++ " in the current report. Check draft risks after loading more data." ∧
    getPredefinedResponse .counter_comp (some (plainReport none none))
      = "No counter-comp strategies generated yet for " ++ (plainReport none none).teamName
        ++ ". Ensure scouting report has been generated." ∧
    getPredefinedResponse .win_conditions (some (plainReport none none))
      = "Win conditions for " ++ (plainReport none none).teamName
        ++ " will appear here once counter strategies and strengths are available." ∧
    getPredefinedResponse .early_game_plan (some (plainReport none none))
      = "Early game plan for " ++ (plainReport none none).teamName
        ++ ": generate a scouting report to see early-phase strategies and draft priorities." ∧
    getPredefinedResponse .weak_player_targeting (some (plainReport none none))
      = "No player-level data for " ++ (plainReport none none).teamName
        ++ " in this report. Load more matches to see weak-player targeting." := by
  obtain ⟨h1, h2, h3, h4, h5, h6⟩ := c8_predefined_response_totality
  exact ⟨h1 .counter_comp, h2 _ rfl, h3 _ rfl, h4 _ rfl rfl rfl, h5 _ rfl rfl rfl, h6 _ rfl⟩

/-! ### C10: mapper-produced reports have no ban-threat risks -/

/-- C10: every draft risk the mapper emits has threat `pick` (never `ban`), so
the insight generator's ban branch contributes no bullet for a mapper-produced
report and `getPredefinedResponse` on `best_ban_strategy` always answers with
the "No priority bans identified" fallback. -/
theorem c10_mapped_reports_have_no_bans (data : ScoutingReportApiResponse)
    (name now : String) :
    ((mapApiResponseToScoutingReport data name now).draftRisks.all
        (fun d => decide (d.threat = .pick)) = true) ∧
    bansOf (mapApiResponseToScoutingReport data name now) = [] ∧
    banBullets (mapApiResponseToScoutingReport data name now) = [] ∧
    preBullets (mapApiResponseToScoutingReport data name now)
      = strategyBullets (mapApiResponseToScoutingReport data name now)
        ++ weaknessBullets (mapApiResponseToScoutingReport data name now) ∧
    getPredefinedResponse .best_ban_strategy
        (some (mapApiResponseToScoutingReport data name now))
      = "No priority bans identified for "
        ++ (mapApiResponseToScoutingReport data name now).teamName
        ++ " in the current report. Check draft risks after loading more data." := by
  have hbans : bansOf (mapApiResponseToScoutingReport data name now) = [] := by
    unfold bansOf
    rw [List.filter_eq_nil_iff]
    intro d hd
    simp [threat_of_mem_mapped hd]
  have hbanb : banBullets (mapApiResponseToScoutingReport data name now) = [] := by
    unfold banBullets
    rw [hbans]
    rfl
  refine ⟨?_, hbans, hbanb, ?_, gpr_best_ban_empty hbans⟩
  · rw [List.all_eq_true]
    intro d hd
    simp [threat_of_mem_mapped hd]
  · unfold preBullets
    rw [hbanb, List.append_nil]

/-! ### C7: intent matching -/

/-- The first intent of the fixed table whose keyword list has a substring
match in the (already normalized) question — the spec's description of the
lookup. -/
def firstIntentFor (q : String) : Option IntentId :=
  (INTENT_MATCHES.find? (fun e => e.2.any (fun k => strIncludes q k))).map (·.1)

/-- C7: `matchIntent` normalizes (lower-case, trim, collapse whitespace runs)
and then returns the first intent in table order with a keyword substring
match, `none` on an empty normalized question or when nothing matches; in
particular "  Best BAN   strategy" normalizes to "best ban strategy" and
matches `best_ban_strategy`. -/
theorem c7_intent_matching :
    (∀ s : String, matchIntent s
      = if normalizeQuestion s = "" then none else firstIntentFor (normalizeQuestion s)) ∧
    normalizeQuestion "  Best BAN   strategy" = "best ban strategy" ∧
    matchIntent "  Best BAN   strategy" = some .best_ban_strategy ∧
    matchIntent "" = none ∧
    matchIntent "   " = none ∧
    matchIntent "hello coach" = none := by
  refine ⟨fun s => rfl, ?_, ?_, rfl, ?_, ?_⟩ <;> decide

/-! ### C2: range invariants of the mapper -/

/-- A payload whose only composition carries an out-of-range `win_rate` and no
`games`/`wins` fields. -/
def c2bad : ScoutingReportApiResponse :=
  ⟨none, none, none, none, none, some [⟨some 500, none, none⟩], none⟩

/-- C2 is false as stated: with arbitrary out-of-range numeric input the
mapper copies `compositions[0].win_rate` into `winRate` unclamped, so the
payload `c2bad` produces `winRate = 500 ∉ [0, 100]`. -/
theorem c2_counterexample :
    (mapApiResponseToScoutingReport c2bad "Team" "t0").winRate = 500 ∧
    ¬ (∀ (data : ScoutingReportApiResponse) (name now : String),
        0 ≤ (mapApiResponseToScoutingReport data name now).winRate ∧
        (mapApiResponseToScoutingReport data name now).winRate ≤ 100 ∧
        ((mapApiResponseToScoutingReport data name now).strengths.all
          (fun s => decide (0 ≤ s.rating ∧ s.rating ≤ 100)) = true) ∧
        ((mapApiResponseToScoutingReport data name now).draftRisks.all
          (fun d => decide (0 ≤ d.priority ∧ d.priority ≤ 100)) = true)) := by
  have hwr : (mapApiResponseToScoutingReport c2bad "Team" "t0").winRate = 500 := by
    show jsRound (winRateRaw c2bad) = 500
    have hraw : winRateRaw c2bad = 500 := by
      unfold winRateRaw totalGames totalWins compsOf c2bad
      norm_num
    rw [hraw]
    unfold jsRound
    norm_num
  refine ⟨hwr, fun h => ?_⟩
  have h2 := (h c2bad "Team" "t0").2.1
  rw [hwr] at h2
  norm_num at h2

lemma mem_of_mem_enum {α : Type} {l : List α} {ip : ℕ × α} (h : ip ∈ l.enum) :
    ip.2 ∈ l := by
  obtain ⟨i, a⟩ := ip
  obtain ⟨h1, h2⟩ := List.mem_enum h
  show a ∈ l
  rw [h2]
  exact List.getElem_mem h1

lemma riskPriority_bounds {g : ℚ} (hg : 0 ≤ g) :
    0 ≤ riskPriority g ∧ riskPriority g ≤ 100 := by
  constructor
  · unfold riskPriority jsMin; split <;> linarith
  · exact le_trans (jsMin_le_left 95 _) (by norm_num)

lemma mem_strengthEntry {s : TeamStrength} {area : String} {om : Option ApiMetric}
    (h : s ∈ strengthEntry area om) :
    ∃ m ∈ om.toList, ∃ sc, m.score = some sc ∧ s.rating = jsRound sc := by
  rcases om with _ | m
  · simp [strengthEntry] at h
  · rcases hsc : m.score with _ | sc
    · simp [strengthEntry, hsc] at h
    · simp [strengthEntry, hsc] at h
      exact ⟨m, by simp, sc, hsc, by rw [h]⟩

lemma winRateRaw_bounds {data : ScoutingReportApiResponse}
    (hcomp : ∀ c ∈ compsOf data, 0 ≤ c.wins.getD 0 ∧ c.wins.getD 0 ≤ c.games.getD 0
      ∧ 0 ≤ c.win_rate.getD 50 ∧ c.win_rate.getD 50 ≤ 100) :
    0 ≤ winRateRaw data ∧ winRateRaw data ≤ 100 := by
  have hW : totalWins data = ((compsOf data).map (fun c => c.wins.getD 0)).sum := by
    unfold totalWins; rw [foldl_add_eq_sum, zero_add]
  have hG : totalGames data = ((compsOf data).map (fun c => c.games.getD 0)).sum := by
    unfold totalGames; rw [foldl_add_eq_sum, zero_add]
  have hW0 : 0 ≤ totalWins data := by
    rw [hW]
    apply List.sum_nonneg
    intro x hx
    obtain ⟨c, hc, rfl⟩ := List.mem_map.mp hx
    exact (hcomp c hc).1
  have hWG : totalWins data ≤ totalGames data := by
    rw [hW, hG]
    exact List.sum_le_sum (fun c hc => (hcomp c hc).2.1)
  unfold winRateRaw
  split
  case isTrue hpos =>
    have hx0 : 0 ≤ 100 * totalWins data / totalGames data :=
      div_nonneg (by linarith) (le_of_lt hpos)
    have hx1 : 100 * totalWins data / totalGames data ≤ 100 := by
      rw [div_le_iff₀ hpos]; linarith
    obtain ⟨hl, hu⟩ := jsRound_mem_Icc hx0 hx1
    constructor
    · exact_mod_cast hl
    · exact_mod_cast hu
  case isFalse =>
    cases hc : compsOf data with
    | nil => norm_num
    | cons c t =>
      have := hcomp c (by rw [hc]; simp)
      exact ⟨this.2.2.1, this.2.2.2⟩

/-- C2 (amended): when the payload's numeric fields are in their natural
ranges — each composition has `0 ≤ wins ≤ games` and an in-range `win_rate`
when present, each team-strategy metric score is in [0, 100] when present, and
champion game counts are non-negative — the mapped report's `winRate`, every
strength rating and every draft-risk priority lie in [0, 100]. -/
theorem c2_amended_ranges (data : ScoutingReportApiResponse) (name now : String)
    (hcomp : ∀ c ∈ compsOf data, 0 ≤ c.wins.getD 0 ∧ c.wins.getD 0 ≤ c.games.getD 0
      ∧ 0 ≤ c.win_rate.getD 50 ∧ c.win_rate.getD 50 ≤ 100)
    (hmetric : ∀ m ∈ (teamStrategyOf data).early_aggression.toList
        ++ (teamStrategyOf data).objective_contest_rate.toList
        ++ (teamStrategyOf data).risk_volatility.toList,
      0 ≤ m.score.getD 0 ∧ m.score.getD 0 ≤ 100)
    (hgames : ∀ p ∈ playersOf data, ∀ c ∈ p.most_played_champions.getD [], 0 ≤ c.games) :
    (0 ≤ (mapApiResponseToScoutingReport data name now).winRate ∧
      (mapApiResponseToScoutingReport data name now).winRate ≤ 100) ∧
    ((mapApiResponseToScoutingReport data name now).strengths.all
      (fun s => decide (0 ≤ s.rating ∧ s.rating ≤ 100)) = true) ∧
    ((mapApiResponseToScoutingReport data name now).draftRisks.all
      (fun d => decide (0 ≤ d.priority ∧ d.priority ≤ 100)) = true) := by
  refine ⟨?_, ?_, ?_⟩
  · obtain ⟨h0, h1⟩ := winRateRaw_bounds hcomp
    exact jsRound_mem_Icc h0 h1
  · rw [List.all_eq_true]
    intro s hs
    rw [decide_eq_true_eq]
    have hs' : s ∈ strengthsOf data := hs
    simp only [strengthsOf] at hs'
    split at hs'
    · simp only [List.mem_singleton] at hs'
      subst hs'
      norm_num
    · have hrange : ∀ m ∈ (teamStrategyOf data).early_aggression.toList
          ++ (teamStrategyOf data).objective_contest_rate.toList
          ++ (teamStrategyOf data).risk_volatility.toList,
          ∀ sc, m.score = some sc → s.rating = jsRound sc →
          0 ≤ s.rating ∧ s.rating ≤ 100 := by
        intro m hm sc hsc hr
        have hb := hmetric m hm
        rw [hsc] at hb
        simp only [Option.getD_some] at hb
        rw [hr]
        exact jsRound_mem_Icc hb.1 hb.2
      rcases List.mem_append.mp hs' with h12 | h3
      · rcases List.mem_append.mp h12 with h1 | h2
        · obtain ⟨m, hm, sc, hsc, hr⟩ := mem_strengthEntry h1
          exact hrange m (List.mem_append_left _ (List.mem_append_left _ hm)) sc hsc hr
        · obtain ⟨m, hm, sc, hsc, hr⟩ := mem_strengthEntry h2
          exact hrange m (List.mem_append_left _ (List.mem_append_right _ hm)) sc hsc hr
      · obtain ⟨m, hm, sc, hsc, hr⟩ := mem_strengthEntry h3
        exact hrange m (List.mem_append_right _ hm) sc hsc hr
  · rw [List.all_eq_true]
    intro d hd
    rw [decide_eq_true_eq]
    obtain ⟨ip, hip, c, hc, rfl⟩ := mem_draftRisksAll (mem_mapped_draftRisks hd)
    exact riskPriority_bounds
      (hgames ip.2 (mem_of_mem_enum hip) c (List.take_subset 2 _ hc))

/-- A well-ranged payload: one strength metric at 80, one player with one
3-game champion, one composition 2 wins out of 4 games at 60% win rate. -/
def c2good : ScoutingReportApiResponse :=
  ⟨none, none, none,
   some ⟨some ⟨some 80, some "high"⟩, none, none, none⟩,
   some [⟨none, some "P", some [⟨"A", 3⟩], none, none, none⟩],
   some [⟨some 60, some 2, some 4⟩],
   none⟩

/-- Witness for the amended C2 at the concrete payload `c2good`. -/
theorem c2_amended_ranges_witness :
    (0 ≤ (mapApiResponseToScoutingReport c2good "Team" "t0").winRate ∧
      (mapApiResponseToScoutingReport c2good "Team" "t0").winRate ≤ 100) ∧
    ((mapApiResponseToScoutingReport c2good "Team" "t0").strengths.all
      (fun s => decide (0 ≤ s.rating ∧ s.rating ≤ 100)) = true) ∧
    ((mapApiResponseToScoutingReport c2good "Team" "t0").draftRisks.all
      (fun d => decide (0 ≤ d.priority ∧ d.priority ≤ 100)) = true) :=
  c2_amended_ranges c2good "Team" "t0" (by decide) (by decide) (by decide)
